import Mathlib

/-!
Verification development for the drone-helm3 configuration loader
(`internal/helm/config.go`): a shallow embedding of `NewConfig`, the three
`envconfig.Process` passes it performs, the timeout normalization, and the
redacted debug logging, together with theorems settling the specification
claims about them.
-/

namespace Helm

/-- A process environment: a finite association of variable names to values
(Go guarantees at most one binding per name; lookup takes the first). -/
def Env := List (String × String)

/-- `os.LookupEnv`. -/
def lookupEnv (env : Env) (k : String) : Option String :=
  match env.find? (fun kv => kv.fst == k) with
  | some kv => some kv.snd
  | none => none

/-- Go `strconv.ParseBool`: the exact set of accepted spellings. -/
def parseBool (s : String) : Option Bool :=
  if s = "1" ∨ s = "t" ∨ s = "T" ∨ s = "true" ∨ s = "TRUE" ∨ s = "True" then some true
  else if s = "0" ∨ s = "f" ∨ s = "F" ∨ s = "false" ∨ s = "FALSE" ∨ s = "False" then some false
  else none

/-- envconfig's slice handling for `[]string`: a present value that trims to
empty yields the empty list, anything else is split on commas. -/
def parseList (v : String) : List String :=
  if v.trim.isEmpty then [] else v.splitOn ","

/-- Go `strings.ToUpper` as it acts on ASCII strings (every key base is ASCII,
and `Char.toUpper` agrees with Go's per-rune upper-casing on ASCII). -/
def toUpperA (s : String) : String := ⟨s.data.map Char.toUpper⟩

/-- envconfig key construction: `info.Key = ToUpper(prefix + "_" + base)`
(the joining underscore is omitted when the prefix argument is empty). -/
def envKey (p keyBase : String) : String :=
  toUpperA (if p = "" then keyBase else p ++ "_" ++ keyBase)

/-- One field's environment lookup in `envconfig.Process`: the prefixed key is
consulted first; when it is absent and the field carries an `envconfig` tag
(`alt ≠ ""`), the bare tag name is consulted as a fallback. The returned pair
carries `info.Key` (used in error reports) alongside the value found. -/
def lookupField (env : Env) (p keyBase alt : String) : Option (String × String) :=
  let key := envKey p keyBase
  match lookupEnv env key with
  | some v => some (key, v)
  | none =>
    if alt = "" then none
    else
      match lookupEnv env alt with
      | some v => some (key, v)
      | none => none

/-- envconfig's `ParseError` (the fields the claims mention). -/
structure ParseError where
  keyName : String
  fieldName : String
  value : String
deriving DecidableEq, Repr

instance {ε α : Type} [DecidableEq ε] [DecidableEq α] : DecidableEq (Except ε α) := fun a b =>
  match a, b with
  | Except.error e1, Except.error e2 =>
    if h : e1 = e2 then isTrue (by rw [h])
    else isFalse (by intro hc; injection hc; contradiction)
  | Except.ok a1, Except.ok a2 =>
    if h : a1 = a2 then isTrue (by rw [h])
    else isFalse (by intro hc; injection hc; contradiction)
  | Except.error _, Except.ok _ => isFalse (by intro hc; injection hc)
  | Except.ok _, Except.error _ => isFalse (by intro hc; injection hc)

/-- An `io.Writer` destination: opaque except for the representation `%+v`
prints for it (a pointer-like string). -/
structure Writer where
  addr : String
deriving DecidableEq, Repr

/-- The `Config` struct of `internal/helm/config.go`, field for field.
`Stdout`/`Stderr` carry the `ignored:"true"` tag and are never read from the
environment; `none` models a nil writer. -/
structure Config where
  Command : String := ""
  DroneEvent : String := ""
  UpdateDependencies : Bool := false
  AddRepos : List String := []
  Prefix : String := ""
  Debug : Bool := false
  Values : String := ""
  StringValues : String := ""
  ValuesFiles : List String := []
  Namespace : String := ""
  KubeToken : String := ""
  SkipTLSVerify : Bool := false
  Certificate : String := ""
  APIServer : String := ""
  ServiceAccount : String := ""
  ChartVersion : String := ""
  DryRun : Bool := false
  Wait : Bool := false
  ReuseValues : Bool := false
  Timeout : String := ""
  Chart : String := ""
  Release : String := ""
  Force : Bool := false
  Stdout : Option Writer := none
  Stderr : Option Writer := none
deriving DecidableEq, Repr

/-- Processing of one string field: a present variable overwrites, an absent
one leaves the field untouched; string conversion cannot fail. -/
def procStr (env : Env) (p keyBase alt : String) (cur : String) : String :=
  match lookupField env p keyBase alt with
  | some (_, v) => v
  | none => cur

/-- Processing of one `[]string` field. -/
def procList (env : Env) (p keyBase alt : String) (cur : List String) : List String :=
  match lookupField env p keyBase alt with
  | some (_, v) => parseList v
  | none => cur

/-- Processing of one boolean field: a present value that `ParseBool` rejects
aborts the pass with a `ParseError` naming `info.Key` and the Go field name. -/
def procBool (env : Env) (p keyBase alt fieldName : String) (cur : Bool) :
    Except ParseError Bool :=
  match lookupField env p keyBase alt with
  | some (k, v) =>
    match parseBool v with
    | some b => Except.ok b
    | none => Except.error ⟨k, fieldName, v⟩
  | none => Except.ok cur

/-- Total variant of `procBool`, meaningful on the error-free path. -/
def procBoolT (env : Env) (p keyBase alt : String) (cur : Bool) : Bool :=
  match lookupField env p keyBase alt with
  | some (_, v) => (parseBool v).getD cur
  | none => cur

/-- Whether one boolean field's lookup, if any, parses. -/
def boolFieldOk (env : Env) (p keyBase alt : String) : Bool :=
  match lookupField env p keyBase alt with
  | some (_, v) => (parseBool v).isSome
  | none => true

/-- One `envconfig.Process(p, &cfg)` pass over the `Config` struct. Key bases
are the statically determined envconfig names: the `envconfig` tag when
present (which then also serves as the unprefixed `alt` fallback), otherwise
the upper-cased field name, with `split_words` fields underscore-joined.
String and list conversions cannot fail, so only the seven boolean fields are
fallible; they are sequenced in struct declaration order, which is the order
envconfig reports the first error in. -/
def Process (env : Env) (p : String) (cfg : Config) : Except ParseError Config := do
  let ud ← procBool env p "UPDATE_DEPENDENCIES" "" "UpdateDependencies" cfg.UpdateDependencies
  let dbg ← procBool env p "DEBUG" "" "Debug" cfg.Debug
  let stv ← procBool env p "SKIP_TLS_VERIFY" "SKIP_TLS_VERIFY" "SkipTLSVerify" cfg.SkipTLSVerify
  let dry ← procBool env p "DRY_RUN" "" "DryRun" cfg.DryRun
  let wt ← procBool env p "WAIT" "" "Wait" cfg.Wait
  let rv ← procBool env p "REUSE_VALUES" "" "ReuseValues" cfg.ReuseValues
  let fc ← procBool env p "FORCE" "" "Force" cfg.Force
  Except.ok { cfg with
    Command := procStr env p "HELM_COMMAND" "HELM_COMMAND" cfg.Command
    DroneEvent := procStr env p "DRONE_BUILD_EVENT" "DRONE_BUILD_EVENT" cfg.DroneEvent
    UpdateDependencies := ud
    AddRepos := procList env p "HELM_REPOS" "HELM_REPOS" cfg.AddRepos
    Prefix := procStr env p "PREFIX" "" cfg.Prefix
    Debug := dbg
    Values := procStr env p "VALUES" "" cfg.Values
    StringValues := procStr env p "STRING_VALUES" "" cfg.StringValues
    ValuesFiles := procList env p "VALUES_FILES" "" cfg.ValuesFiles
    Namespace := procStr env p "NAMESPACE" "" cfg.Namespace
    KubeToken := procStr env p "KUBERNETES_TOKEN" "KUBERNETES_TOKEN" cfg.KubeToken
    SkipTLSVerify := stv
    Certificate := procStr env p "KUBERNETES_CERTIFICATE" "KUBERNETES_CERTIFICATE" cfg.Certificate
    APIServer := procStr env p "API_SERVER" "API_SERVER" cfg.APIServer
    ServiceAccount := procStr env p "SERVICE_ACCOUNT" "" cfg.ServiceAccount
    ChartVersion := procStr env p "CHART_VERSION" "" cfg.ChartVersion
    DryRun := dry
    Wait := wt
    ReuseValues := rv
    Timeout := procStr env p "TIMEOUT" "" cfg.Timeout
    Chart := procStr env p "CHART" "" cfg.Chart
    Release := procStr env p "RELEASE" "" cfg.Release
    Force := fc }

/-- Total version of `Process`: the record produced on the error-free path. -/
def ProcessT (env : Env) (p : String) (cfg : Config) : Config :=
  { cfg with
    Command := procStr env p "HELM_COMMAND" "HELM_COMMAND" cfg.Command
    DroneEvent := procStr env p "DRONE_BUILD_EVENT" "DRONE_BUILD_EVENT" cfg.DroneEvent
    UpdateDependencies := procBoolT env p "UPDATE_DEPENDENCIES" "" cfg.UpdateDependencies
    AddRepos := procList env p "HELM_REPOS" "HELM_REPOS" cfg.AddRepos
    Prefix := procStr env p "PREFIX" "" cfg.Prefix
    Debug := procBoolT env p "DEBUG" "" cfg.Debug
    Values := procStr env p "VALUES" "" cfg.Values
    StringValues := procStr env p "STRING_VALUES" "" cfg.StringValues
    ValuesFiles := procList env p "VALUES_FILES" "" cfg.ValuesFiles
    Namespace := procStr env p "NAMESPACE" "" cfg.Namespace
    KubeToken := procStr env p "KUBERNETES_TOKEN" "KUBERNETES_TOKEN" cfg.KubeToken
    SkipTLSVerify := procBoolT env p "SKIP_TLS_VERIFY" "SKIP_TLS_VERIFY" cfg.SkipTLSVerify
    Certificate := procStr env p "KUBERNETES_CERTIFICATE" "KUBERNETES_CERTIFICATE" cfg.Certificate
    APIServer := procStr env p "API_SERVER" "API_SERVER" cfg.APIServer
    ServiceAccount := procStr env p "SERVICE_ACCOUNT" "" cfg.ServiceAccount
    ChartVersion := procStr env p "CHART_VERSION" "" cfg.ChartVersion
    DryRun := procBoolT env p "DRY_RUN" "" cfg.DryRun
    Wait := procBoolT env p "WAIT" "" cfg.Wait
    ReuseValues := procBoolT env p "REUSE_VALUES" "" cfg.ReuseValues
    Timeout := procStr env p "TIMEOUT" "" cfg.Timeout
    Chart := procStr env p "CHART" "" cfg.Chart
    Release := procStr env p "RELEASE" "" cfg.Release
    Force := procBoolT env p "FORCE" "" cfg.Force }

/-- Whether every boolean variable present for pass `p` parses. -/
def ProcessOkB (env : Env) (p : String) : Bool :=
  boolFieldOk env p "UPDATE_DEPENDENCIES" "" &&
  boolFieldOk env p "DEBUG" "" &&
  boolFieldOk env p "SKIP_TLS_VERIFY" "SKIP_TLS_VERIFY" &&
  boolFieldOk env p "DRY_RUN" "" &&
  boolFieldOk env p "WAIT" "" &&
  boolFieldOk env p "REUSE_VALUES" "" &&
  boolFieldOk env p "FORCE" ""

/-- The record `NewConfig` starts from: zero values everywhere except the two
caller-supplied writers. -/
def initConfig (stdout stderr : Option Writer) : Config :=
  { Stdout := stdout, Stderr := stderr }

/-- The three environment passes of `NewConfig`: fixed prefix `"plugin"`,
then unprefixed, then — when the prefix captured right after pass 1 is
non-empty — a pass whose prefix argument is `cfg.Prefix` as it stands after
pass 2. -/
def afterPasses (env : Env) (stdout stderr : Option Writer) : Except ParseError Config := do
  let c1 ← Process env "plugin" (initConfig stdout stderr)
  let pfx := c1.Prefix
  let c2 ← Process env "" c1
  if pfx ≠ "" then Process env c2.Prefix c2 else Except.ok c2

/-- The `justNumbers` regexp `^\d+$`: non-empty and all decimal digits. -/
def justNumbers (s : String) : Bool :=
  !s.data.isEmpty && s.data.all (fun c => c.isDigit)

/-- The timeout post-processing step of `NewConfig`. -/
def normalizeTimeout (cfg : Config) : Config :=
  if justNumbers cfg.Timeout then { cfg with Timeout := cfg.Timeout ++ "s" } else cfg

def renderBool (b : Bool) : String := if b then "true" else "false"

/-- `%+v` rendering of a `[]string`. -/
def renderList (l : List String) : String := "[" ++ String.intercalate " " l ++ "]"

/-- `%+v` rendering of an `io.Writer` field inside a struct. -/
def renderWriter : Option Writer → String
  | none => "<nil>"
  | some w => w.addr

/-- `%+v` rendering of the `Config` struct: field names in declaration order
(braces written as `\x7b`/`\x7d` escapes). -/
def renderConfig (c : Config) : String :=
  "\x7bCommand:" ++ c.Command ++
  " DroneEvent:" ++ c.DroneEvent ++
  " UpdateDependencies:" ++ renderBool c.UpdateDependencies ++
  " AddRepos:" ++ renderList c.AddRepos ++
  " Prefix:" ++ c.Prefix ++
  " Debug:" ++ renderBool c.Debug ++
  " Values:" ++ c.Values ++
  " StringValues:" ++ c.StringValues ++
  " ValuesFiles:" ++ renderList c.ValuesFiles ++
  " Namespace:" ++ c.Namespace ++
  " KubeToken:" ++ c.KubeToken ++
  " SkipTLSVerify:" ++ renderBool c.SkipTLSVerify ++
  " Certificate:" ++ c.Certificate ++
  " APIServer:" ++ c.APIServer ++
  " ServiceAccount:" ++ c.ServiceAccount ++
  " ChartVersion:" ++ c.ChartVersion ++
  " DryRun:" ++ renderBool c.DryRun ++
  " Wait:" ++ renderBool c.Wait ++
  " ReuseValues:" ++ renderBool c.ReuseValues ++
  " Timeout:" ++ c.Timeout ++
  " Chart:" ++ c.Chart ++
  " Release:" ++ c.Release ++
  " Force:" ++ renderBool c.Force ++
  " Stdout:" ++ renderWriter c.Stdout ++
  " Stderr:" ++ renderWriter c.Stderr ++ "\x7d"

/-- `logDebug`'s in-place redaction of its by-value receiver copy. -/
def redactConfig (cfg : Config) : Config :=
  if cfg.KubeToken ≠ "" then { cfg with KubeToken := "(redacted)" } else cfg

/-- The single line `logDebug` writes to `cfg.Stderr`. -/
def logDebugLine (cfg : Config) : String :=
  "Generated config: " ++ renderConfig (redactConfig cfg) ++ "\n"

/-- `NewConfig`: the three passes, the timeout normalization, and the debug
emission. The result pairs the returned value (`*Config, error`) with the
lines written to the stdout and stderr destinations during the call. -/
def NewConfig (env : Env) (stdout stderr : Option Writer) :
    Except ParseError Config × (List String × List String) :=
  match afterPasses env stdout stderr with
  | Except.error e => (Except.error e, ([], []))
  | Except.ok c0 =>
    let cfg := normalizeTimeout c0
    (Except.ok cfg,
      ([], if cfg.Debug && cfg.Stderr.isSome then [logDebugLine cfg] else []))

/-- The kinds of environment-backed fields. -/
inductive FKind where
  | kStr
  | kBool
  | kList
deriving DecidableEq, Repr

/-- The values an environment-backed field can hold. -/
inductive FieldVal where
  | vStr : String → FieldVal
  | vBool : Bool → FieldVal
  | vList : List String → FieldVal
deriving DecidableEq, Repr

/-- The 23 environment-backed fields of `Config` (`Stdout`/`Stderr` carry the
`ignored` tag and are excluded). -/
inductive FieldId where
  | command
  | droneEvent
  | updateDependencies
  | addRepos
  | pfx
  | debug
  | values
  | stringValues
  | valuesFiles
  | nspace
  | kubeToken
  | skipTLSVerify
  | certificate
  | apiServer
  | serviceAccount
  | chartVersion
  | dryRun
  | wait
  | reuseValues
  | timeout
  | chart
  | release
  | force
deriving DecidableEq, Repr

def FieldId.kind : FieldId → FKind
  | .command => .kStr
  | .droneEvent => .kStr
  | .updateDependencies => .kBool
  | .addRepos => .kList
  | .pfx => .kStr
  | .debug => .kBool
  | .values => .kStr
  | .stringValues => .kStr
  | .valuesFiles => .kList
  | .nspace => .kStr
  | .kubeToken => .kStr
  | .skipTLSVerify => .kBool
  | .certificate => .kStr
  | .apiServer => .kStr
  | .serviceAccount => .kStr
  | .chartVersion => .kStr
  | .dryRun => .kBool
  | .wait => .kBool
  | .reuseValues => .kBool
  | .timeout => .kStr
  | .chart => .kStr
  | .release => .kStr
  | .force => .kBool

/-- The per-field envconfig key base (see `Process`). -/
def FieldId.keyBase : FieldId → String
  | .command => "HELM_COMMAND"
  | .droneEvent => "DRONE_BUILD_EVENT"
  | .updateDependencies => "UPDATE_DEPENDENCIES"
  | .addRepos => "HELM_REPOS"
  | .pfx => "PREFIX"
  | .debug => "DEBUG"
  | .values => "VALUES"
  | .stringValues => "STRING_VALUES"
  | .valuesFiles => "VALUES_FILES"
  | .nspace => "NAMESPACE"
  | .kubeToken => "KUBERNETES_TOKEN"
  | .skipTLSVerify => "SKIP_TLS_VERIFY"
  | .certificate => "KUBERNETES_CERTIFICATE"
  | .apiServer => "API_SERVER"
  | .serviceAccount => "SERVICE_ACCOUNT"
  | .chartVersion => "CHART_VERSION"
  | .dryRun => "DRY_RUN"
  | .wait => "WAIT"
  | .reuseValues => "REUSE_VALUES"
  | .timeout => "TIMEOUT"
  | .chart => "CHART"
  | .release => "RELEASE"
  | .force => "FORCE"

/-- The per-field unprefixed fallback name: the `envconfig` tag when present,
`""` otherwise. -/
def FieldId.alt : FieldId → String
  | .command => "HELM_COMMAND"
  | .droneEvent => "DRONE_BUILD_EVENT"
  | .addRepos => "HELM_REPOS"
  | .kubeToken => "KUBERNETES_TOKEN"
  | .skipTLSVerify => "SKIP_TLS_VERIFY"
  | .certificate => "KUBERNETES_CERTIFICATE"
  | .apiServer => "API_SERVER"
  | _ => ""

/-- The Go struct field name, as reported in `ParseError.FieldName`. -/
def FieldId.goName : FieldId → String
  | .command => "Command"
  | .droneEvent => "DroneEvent"
  | .updateDependencies => "UpdateDependencies"
  | .addRepos => "AddRepos"
  | .pfx => "Prefix"
  | .debug => "Debug"
  | .values => "Values"
  | .stringValues => "StringValues"
  | .valuesFiles => "ValuesFiles"
  | .nspace => "Namespace"
  | .kubeToken => "KubeToken"
  | .skipTLSVerify => "SkipTLSVerify"
  | .certificate => "Certificate"
  | .apiServer => "APIServer"
  | .serviceAccount => "ServiceAccount"
  | .chartVersion => "ChartVersion"
  | .dryRun => "DryRun"
  | .wait => "Wait"
  | .reuseValues => "ReuseValues"
  | .timeout => "Timeout"
  | .chart => "Chart"
  | .release => "Release"
  | .force => "Force"

def FieldId.get : FieldId → Config → FieldVal
  | .command, c => .vStr c.Command
  | .droneEvent, c => .vStr c.DroneEvent
  | .updateDependencies, c => .vBool c.UpdateDependencies
  | .addRepos, c => .vList c.AddRepos
  | .pfx, c => .vStr c.Prefix
  | .debug, c => .vBool c.Debug
  | .values, c => .vStr c.Values
  | .stringValues, c => .vStr c.StringValues
  | .valuesFiles, c => .vList c.ValuesFiles
  | .nspace, c => .vStr c.Namespace
  | .kubeToken, c => .vStr c.KubeToken
  | .skipTLSVerify, c => .vBool c.SkipTLSVerify
  | .certificate, c => .vStr c.Certificate
  | .apiServer, c => .vStr c.APIServer
  | .serviceAccount, c => .vStr c.ServiceAccount
  | .chartVersion, c => .vStr c.ChartVersion
  | .dryRun, c => .vBool c.DryRun
  | .wait, c => .vBool c.Wait
  | .reuseValues, c => .vBool c.ReuseValues
  | .timeout, c => .vStr c.Timeout
  | .chart, c => .vStr c.Chart
  | .release, c => .vStr c.Release
  | .force, c => .vBool c.Force

/-- The zero value of a field's type. -/
def FieldId.zero (f : FieldId) : FieldVal :=
  match f.kind with
  | .kStr => .vStr ""
  | .kBool => .vBool false
  | .kList => .vList []

/-- Whether a variable matching field `f` is present for the pass with
prefix argument `p` (counting the unprefixed `envconfig`-tag fallback). -/
def present (env : Env) (p : String) (f : FieldId) : Bool :=
  (lookupField env p f.keyBase f.alt).isSome

/-- The value `prefix := cfg.Prefix` captured between pass 1 and pass 2. -/
def capturedPfx (env : Env) (so se : Option Writer) : String :=
  (ProcessT env "plugin" (initConfig so se)).Prefix

/-- The record as it stands after the first two passes (error-free path). -/
def cfgAfter2 (env : Env) (so se : Option Writer) : Config :=
  ProcessT env "" (ProcessT env "plugin" (initConfig so se))

/-- The prefix argument actually handed to the third `Process` call:
`cfg.Prefix` as it stands after pass 2. -/
def pass3Pfx (env : Env) (so se : Option Writer) : String :=
  (cfgAfter2 env so se).Prefix

/-- Whether the third pass runs: the captured prefix is non-empty. -/
def pass3Runs (env : Env) (so se : Option Writer) : Bool :=
  capturedPfx env so se != ""

/-- The record after all passes (error-free path). -/
def afterPassesT (env : Env) (so se : Option Writer) : Config :=
  if pass3Runs env so se then ProcessT env (pass3Pfx env so se) (cfgAfter2 env so se)
  else cfgAfter2 env so se

/-- Whether every boolean variable consulted by any executed pass parses. -/
def afterPassesOkB (env : Env) (so se : Option Writer) : Bool :=
  ProcessOkB env "plugin" && ProcessOkB env "" &&
    (!pass3Runs env so se || ProcessOkB env (pass3Pfx env so se))

/-- Whether a raw environment string cannot be coerced to a field type:
string and list conversions are total, boolean conversion fails outside
`ParseBool`'s accepted set. -/
def coerceFails : FKind → String → Prop
  | .kStr, _ => False
  | .kList, _ => False
  | .kBool, v => parseBool v = none

/-- Pass `p` consults some variable whose value cannot be coerced to its
field's declared type. -/
def passHasCoercionFailure (env : Env) (p : String) : Prop :=
  ∃ f : FieldId, ∃ k v,
    lookupField env p f.keyBase f.alt = some (k, v) ∧ coerceFails f.kind v

/-- The error `e` is the coercion failure of one specific boolean field of
pass `p`: it names that field's key and the offending value. -/
def boolErrAt (env : Env) (p kb alt fn : String) (e : ParseError) : Prop :=
  ∃ k v, lookupField env p kb alt = some (k, v) ∧ parseBool v = none ∧
    e = ⟨k, fn, v⟩

def errFromBool (env : Env) (p : String) (e : ParseError) : Prop :=
  boolErrAt env p "UPDATE_DEPENDENCIES" "" "UpdateDependencies" e ∨
  boolErrAt env p "DEBUG" "" "Debug" e ∨
  boolErrAt env p "SKIP_TLS_VERIFY" "SKIP_TLS_VERIFY" "SkipTLSVerify" e ∨
  boolErrAt env p "DRY_RUN" "" "DryRun" e ∨
  boolErrAt env p "WAIT" "" "Wait" e ∨
  boolErrAt env p "REUSE_VALUES" "" "ReuseValues" e ∨
  boolErrAt env p "FORCE" "" "Force" e

/-- The error returned by the constructor is one specific boolean field's
coercion failure, arising in one of the executed passes. -/
def errIdentified (env : Env) (so se : Option Writer) (e : ParseError) : Prop :=
  errFromBool env "plugin" e ∨ errFromBool env "" e ∨
    (pass3Runs env so se = true ∧ errFromBool env (pass3Pfx env so se) e)

/-! ### Concrete environments used as inputs to witnesses and counterexamples -/

/-- `PLUGIN_PREFIX` and a conflicting bare `PREFIX`, with a timeout in each
candidate namespace. -/
def envBareRedirect : Env :=
  [("PLUGIN_PREFIX", "prod"), ("PREFIX", "other"),
   ("PROD_TIMEOUT", "2m30s"), ("OTHER_TIMEOUT", "9m9s")]

/-- Conflicting timeout settings across all namespaces together with a bare
`PREFIX`. -/
def envConflictRedirect : Env :=
  [("PLUGIN_PREFIX", "prod"), ("PREFIX", "other"), ("TIMEOUT", "5m0s"),
   ("PROD_TIMEOUT", "2m30s"), ("OTHER_TIMEOUT", "7m7s")]

/-- A purely numeric timeout. -/
def envNumericTimeout : Env := [("PLUGIN_TIMEOUT", "42")]

/-- Debug on, with the auth token value also stored in the `Values` field. -/
def envTokenTwice : Env :=
  [("PLUGIN_DEBUG", "true"), ("PLUGIN_KUBERNETES_TOKEN", "hunter2"),
   ("PLUGIN_VALUES", "hunter2")]

/-- Debug on with an auth token present. -/
def envDebugToken : Env := [("DEBUG", "true"), ("KUBERNETES_TOKEN", "tok123")]

/-- A malformed boolean value. -/
def envBadBool : Env := [("DEBUG", "banana")]

/-- A mixed-case boolean spelling outside `ParseBool`'s accepted set. -/
def envMixedCaseBool : Env := [("PLUGIN_DEBUG", "tRue")]

/-- An accepted boolean spelling. -/
def envTrueBool : Env := [("PLUGIN_DEBUG", "True")]

/-- Debug on, nothing else set. -/
def envDebugOnly : Env := [("DEBUG", "true")]

/-- A configurable prefix whose own namespace overwrites the prefix field. -/
def envPfxOverwrite : Env := [("PLUGIN_PREFIX", "prod"), ("PROD_PREFIX", "beta")]

/-- The record `envDebugToken` produces (stderr destination `0x2`). -/
def cfgDebugToken : Config :=
  { Debug := true, KubeToken := "tok123", Stderr := some ⟨"0x2"⟩ }

/-- The record `envTokenTwice` produces (stderr destination `0x1`). -/
def cfgTokenTwice : Config :=
  { Debug := true, KubeToken := "hunter2", Values := "hunter2", Stderr := some ⟨"0x1"⟩ }

/-- The record `envDebugOnly` produces (stderr destination `0x3`). -/
def cfgDebugOnly : Config := { Debug := true, Stderr := some ⟨"0x3"⟩ }

/-- The debug line `envTokenTwice` yields, up to the `Values` field's value. -/
def strLeakA : String :=
  "Generated config: \x7bCommand: DroneEvent: UpdateDependencies:false AddRepos:[] Prefix: Debug:true Values:"

/-- The debug line `envTokenTwice` yields, after the `Values` field's value
(note the `KubeToken` slot itself shows `(redacted)`). -/
def strLeakB : String :=
  " StringValues: ValuesFiles:[] Namespace: KubeToken:(redacted) SkipTLSVerify:false Certificate: APIServer: ServiceAccount: ChartVersion: DryRun:false Wait:false ReuseValues:false Timeout: Chart: Release: Force:false Stdout:<nil> Stderr:0x1\x7d\n"

/-- The `%+v` rendering of the fields declared before `KubeToken`, preceded
by the log-line banner. -/
def renderHead (c : Config) : String :=
  "Generated config: " ++ "\x7bCommand:" ++ c.Command ++
  " DroneEvent:" ++ c.DroneEvent ++
  " UpdateDependencies:" ++ renderBool c.UpdateDependencies ++
  " AddRepos:" ++ renderList c.AddRepos ++
  " Prefix:" ++ c.Prefix ++
  " Debug:" ++ renderBool c.Debug ++
  " Values:" ++ c.Values ++
  " StringValues:" ++ c.StringValues ++
  " ValuesFiles:" ++ renderList c.ValuesFiles ++
  " Namespace:" ++ c.Namespace

/-- The `%+v` rendering of the fields declared from `SkipTLSVerify` on,
followed by the closing brace and newline. -/
def renderTail (c : Config) : String :=
  renderBool c.SkipTLSVerify ++
  " Certificate:" ++ c.Certificate ++
  " APIServer:" ++ c.APIServer ++
  " ServiceAccount:" ++ c.ServiceAccount ++
  " ChartVersion:" ++ c.ChartVersion ++
  " DryRun:" ++ renderBool c.DryRun ++
  " Wait:" ++ renderBool c.Wait ++
  " ReuseValues:" ++ renderBool c.ReuseValues ++
  " Timeout:" ++ c.Timeout ++
  " Chart:" ++ c.Chart ++
  " Release:" ++ c.Release ++
  " Force:" ++ renderBool c.Force ++
  " Stdout:" ++ renderWriter c.Stdout ++
  " Stderr:" ++ renderWriter c.Stderr ++ "\x7d" ++ "\n"

/-! ### Bridge lemmas between `Process` and its total/decidable views -/

theorem procBool_ok_iff (env : Env) (p kb alt fn : String) (cur b : Bool) :
    procBool env p kb alt fn cur = Except.ok b ↔
      boolFieldOk env p kb alt = true ∧ b = procBoolT env p kb alt cur := by
  simp only [procBool, procBoolT, boolFieldOk]
  cases h : lookupField env p kb alt with
  | none => simp [eq_comm]
  | some kv =>
    obtain ⟨k, v⟩ := kv
    cases hv : parseBool v with
    | none => simp [hv]
    | some b0 => simp [hv, eq_comm]

theorem procBool_error_iff (env : Env) (p kb alt fn : String) (cur : Bool) (e : ParseError) :
    procBool env p kb alt fn cur = Except.error e ↔ boolErrAt env p kb alt fn e := by
  simp only [procBool, boolErrAt]
  cases h : lookupField env p kb alt with
  | none => simp
  | some kv =>
    obtain ⟨k, v⟩ := kv
    cases hv : parseBool v with
    | none =>
      simp only [hv]
      constructor
      · intro he
        injection he with he2
        exact ⟨k, v, rfl, hv, he2.symm⟩
      · rintro ⟨k1, v1, hl, hp, rfl⟩
        simp only [Option.some.injEq, Prod.mk.injEq] at hl
        obtain ⟨rfl, rfl⟩ := hl
        rfl
    | some b0 => simp [hv]

theorem boolFieldOk_of_error (env : Env) (p kb alt fn : String) (cur : Bool) (e : ParseError)
    (h : procBool env p kb alt fn cur = Except.error e) :
    boolFieldOk env p kb alt = false := by
  obtain ⟨k, v, hl, hp, _⟩ := (procBool_error_iff env p kb alt fn cur e).mp h
  simp [boolFieldOk, hl, hp]

theorem Process_ok_iff (env : Env) (p : String) (cfg c : Config) :
    Process env p cfg = Except.ok c ↔
      ProcessOkB env p = true ∧ c = ProcessT env p cfg := by
  simp only [Process, ProcessOkB, ProcessT, bind, Except.bind]
  cases h1 : procBool env p "UPDATE_DEPENDENCIES" "" "UpdateDependencies" cfg.UpdateDependencies with
  | error e => simp [boolFieldOk_of_error _ _ _ _ _ _ _ h1]
  | ok ud =>
    obtain ⟨hb1, he1⟩ := (procBool_ok_iff env p _ _ _ _ _).mp h1
    cases h2 : procBool env p "DEBUG" "" "Debug" cfg.Debug with
    | error e => simp [boolFieldOk_of_error _ _ _ _ _ _ _ h2, hb1]
    | ok dbg =>
      obtain ⟨hb2, he2⟩ := (procBool_ok_iff env p _ _ _ _ _).mp h2
      cases h3 : procBool env p "SKIP_TLS_VERIFY" "SKIP_TLS_VERIFY" "SkipTLSVerify" cfg.SkipTLSVerify with
      | error e => simp [boolFieldOk_of_error _ _ _ _ _ _ _ h3, hb1, hb2]
      | ok stv =>
        obtain ⟨hb3, he3⟩ := (procBool_ok_iff env p _ _ _ _ _).mp h3
        cases h4 : procBool env p "DRY_RUN" "" "DryRun" cfg.DryRun with
        | error e => simp [boolFieldOk_of_error _ _ _ _ _ _ _ h4, hb1, hb2, hb3]
        | ok dry =>
          obtain ⟨hb4, he4⟩ := (procBool_ok_iff env p _ _ _ _ _).mp h4
          cases h5 : procBool env p "WAIT" "" "Wait" cfg.Wait with
          | error e => simp [boolFieldOk_of_error _ _ _ _ _ _ _ h5, hb1, hb2, hb3, hb4]
          | ok wt =>
            obtain ⟨hb5, he5⟩ := (procBool_ok_iff env p _ _ _ _ _).mp h5
            cases h6 : procBool env p "REUSE_VALUES" "" "ReuseValues" cfg.ReuseValues with
            | error e => simp [boolFieldOk_of_error _ _ _ _ _ _ _ h6, hb1, hb2, hb3, hb4, hb5]
            | ok rv =>
              obtain ⟨hb6, he6⟩ := (procBool_ok_iff env p _ _ _ _ _).mp h6
              cases h7 : procBool env p "FORCE" "" "Force" cfg.Force with
              | error e => simp [boolFieldOk_of_error _ _ _ _ _ _ _ h7, hb1, hb2, hb3, hb4, hb5, hb6]
              | ok fc =>
                obtain ⟨hb7, he7⟩ := (procBool_ok_iff env p _ _ _ _ _).mp h7
                subst he1 he2 he3 he4 he5 he6 he7
                simp [hb1, hb2, hb3, hb4, hb5, hb6, hb7, eq_comm]

theorem Process_error_imp (env : Env) (p : String) (cfg : Config) (e : ParseError)
    (h : Process env p cfg = Except.error e) : errFromBool env p e := by
  simp only [Process, bind, Except.bind] at h
  unfold errFromBool
  cases h1 : procBool env p "UPDATE_DEPENDENCIES" "" "UpdateDependencies" cfg.UpdateDependencies with
  | error e1 =>
    rw [h1] at h
    exact Or.inl ((procBool_error_iff env p _ _ _ _ _).mp (h1.trans (congrArg Except.error (Except.error.injEq _ _ ▸ by injection h))))
  | ok ud =>
    rw [h1] at h
    cases h2 : procBool env p "DEBUG" "" "Debug" cfg.Debug with
    | error e2 =>
      rw [h2] at h
      injection h with h
      exact Or.inr (Or.inl ((procBool_error_iff env p _ _ _ _ _).mp (h ▸ h2)))
    | ok dbg =>
      rw [h2] at h
      cases h3 : procBool env p "SKIP_TLS_VERIFY" "SKIP_TLS_VERIFY" "SkipTLSVerify" cfg.SkipTLSVerify with
      | error e3 =>
        rw [h3] at h
        injection h with h
        exact Or.inr (Or.inr (Or.inl ((procBool_error_iff env p _ _ _ _ _).mp (h ▸ h3))))
      | ok stv =>
        rw [h3] at h
        cases h4 : procBool env p "DRY_RUN" "" "DryRun" cfg.DryRun with
        | error e4 =>
          rw [h4] at h
          injection h with h
          exact Or.inr (Or.inr (Or.inr (Or.inl ((procBool_error_iff env p _ _ _ _ _).mp (h ▸ h4)))))
        | ok dry =>
          rw [h4] at h
          cases h5 : procBool env p "WAIT" "" "Wait" cfg.Wait with
          | error e5 =>
            rw [h5] at h
            injection h with h
            exact Or.inr (Or.inr (Or.inr (Or.inr (Or.inl ((procBool_error_iff env p _ _ _ _ _).mp (h ▸ h5))))))
          | ok wt =>
            rw [h5] at h
            cases h6 : procBool env p "REUSE_VALUES" "" "ReuseValues" cfg.ReuseValues with
            | error e6 =>
              rw [h6] at h
              injection h with h
              exact Or.inr (Or.inr (Or.inr (Or.inr (Or.inr (Or.inl ((procBool_error_iff env p _ _ _ _ _).mp (h ▸ h6)))))))
            | ok rv =>
              rw [h6] at h
              cases h7 : procBool env p "FORCE" "" "Force" cfg.Force with
              | error e7 =>
                rw [h7] at h
                injection h with h
                exact Or.inr (Or.inr (Or.inr (Or.inr (Or.inr (Or.inr ((procBool_error_iff env p _ _ _ _ _).mp (h ▸ h7)))))))
              | ok fc =>
                rw [h7] at h
                exact absurd h (by simp)

theorem Process_error_iff_okB (env : Env) (p : String) (cfg : Config) :
    (∃ e, Process env p cfg = Except.error e) ↔ ProcessOkB env p = false := by
  constructor
  · rintro ⟨e, he⟩
    by_contra hok
    rw [Bool.not_eq_false] at hok
    have hp : Process env p cfg = Except.ok (ProcessT env p cfg) :=
      (Process_ok_iff env p cfg _).mpr ⟨hok, rfl⟩
    rw [hp] at he
    exact absurd he (by simp)
  · intro hok
    cases hp : Process env p cfg with
    | error e => exact ⟨e, rfl⟩
    | ok c =>
      obtain ⟨h1, _⟩ := (Process_ok_iff env p cfg c).mp hp
      rw [h1] at hok
      exact absurd hok (by simp)

theorem lookupField_noAlt (env : Env) (p kb : String) :
    lookupField env p kb "" =
      (lookupEnv env (envKey p kb)).map (fun v => (envKey p kb, v)) := by
  unfold lookupField
  cases h : lookupEnv env (envKey p kb) <;> simp [h]

theorem boolFieldOk_false_iff (env : Env) (p kb alt : String) :
    boolFieldOk env p kb alt = false ↔
      ∃ k v, lookupField env p kb alt = some (k, v) ∧ parseBool v = none := by
  unfold boolFieldOk
  cases h : lookupField env p kb alt with
  | none => simp
  | some kv =>
    obtain ⟨k, v⟩ := kv
    cases hv : parseBool v with
    | none => simpa [hv] using ⟨k, v, ⟨rfl, rfl⟩, hv⟩
    | some b0 => simp [hv]

theorem ProcessOkB_false_iff (env : Env) (p : String) :
    ProcessOkB env p = false ↔ passHasCoercionFailure env p := by
  have hsplit : ProcessOkB env p = false ↔
      (boolFieldOk env p "UPDATE_DEPENDENCIES" "" = false ∨
       boolFieldOk env p "DEBUG" "" = false ∨
       boolFieldOk env p "SKIP_TLS_VERIFY" "SKIP_TLS_VERIFY" = false ∨
       boolFieldOk env p "DRY_RUN" "" = false ∨
       boolFieldOk env p "WAIT" "" = false ∨
       boolFieldOk env p "REUSE_VALUES" "" = false ∨
       boolFieldOk env p "FORCE" "" = false) := by
    unfold ProcessOkB
    cases boolFieldOk env p "UPDATE_DEPENDENCIES" "" <;>
    cases boolFieldOk env p "DEBUG" "" <;>
    cases boolFieldOk env p "SKIP_TLS_VERIFY" "SKIP_TLS_VERIFY" <;>
    cases boolFieldOk env p "DRY_RUN" "" <;>
    cases boolFieldOk env p "WAIT" "" <;>
    cases boolFieldOk env p "REUSE_VALUES" "" <;>
    cases boolFieldOk env p "FORCE" "" <;> simp
  rw [hsplit]
  constructor
  · rintro (h | h | h | h | h | h | h)
    · obtain ⟨k, v, hl, hpv⟩ := (boolFieldOk_false_iff env p _ _).mp h
      exact ⟨.updateDependencies, k, v, hl, hpv⟩
    · obtain ⟨k, v, hl, hpv⟩ := (boolFieldOk_false_iff env p _ _).mp h
      exact ⟨.debug, k, v, hl, hpv⟩
    · obtain ⟨k, v, hl, hpv⟩ := (boolFieldOk_false_iff env p _ _).mp h
      exact ⟨.skipTLSVerify, k, v, hl, hpv⟩
    · obtain ⟨k, v, hl, hpv⟩ := (boolFieldOk_false_iff env p _ _).mp h
      exact ⟨.dryRun, k, v, hl, hpv⟩
    · obtain ⟨k, v, hl, hpv⟩ := (boolFieldOk_false_iff env p _ _).mp h
      exact ⟨.wait, k, v, hl, hpv⟩
    · obtain ⟨k, v, hl, hpv⟩ := (boolFieldOk_false_iff env p _ _).mp h
      exact ⟨.reuseValues, k, v, hl, hpv⟩
    · obtain ⟨k, v, hl, hpv⟩ := (boolFieldOk_false_iff env p _ _).mp h
      exact ⟨.force, k, v, hl, hpv⟩
  · rintro ⟨f, k, v, hl, hpv⟩
    cases f with
    | updateDependencies => exact Or.inl ((boolFieldOk_false_iff env p _ _).mpr ⟨k, v, hl, hpv⟩)
    | debug => exact Or.inr (Or.inl ((boolFieldOk_false_iff env p _ _).mpr ⟨k, v, hl, hpv⟩))
    | skipTLSVerify =>
      exact Or.inr (Or.inr (Or.inl ((boolFieldOk_false_iff env p _ _).mpr ⟨k, v, hl, hpv⟩)))
    | dryRun =>
      exact Or.inr (Or.inr (Or.inr (Or.inl ((boolFieldOk_false_iff env p _ _).mpr ⟨k, v, hl, hpv⟩))))
    | wait =>
      exact Or.inr (Or.inr (Or.inr (Or.inr (Or.inl
        ((boolFieldOk_false_iff env p _ _).mpr ⟨k, v, hl, hpv⟩)))))
    | reuseValues =>
      exact Or.inr (Or.inr (Or.inr (Or.inr (Or.inr (Or.inl
        ((boolFieldOk_false_iff env p _ _).mpr ⟨k, v, hl, hpv⟩))))))
    | force =>
      exact Or.inr (Or.inr (Or.inr (Or.inr (Or.inr (Or.inr
        ((boolFieldOk_false_iff env p _ _).mpr ⟨k, v, hl, hpv⟩))))))
    | command => exact hpv.elim
    | droneEvent => exact hpv.elim
    | addRepos => exact hpv.elim
    | pfx => exact hpv.elim
    | values => exact hpv.elim
    | stringValues => exact hpv.elim
    | valuesFiles => exact hpv.elim
    | nspace => exact hpv.elim
    | kubeToken => exact hpv.elim
    | certificate => exact hpv.elim
    | apiServer => exact hpv.elim
    | serviceAccount => exact hpv.elim
    | chartVersion => exact hpv.elim
    | timeout => exact hpv.elim
    | chart => exact hpv.elim
    | release => exact hpv.elim

theorem afterPasses_ok_iff (env : Env) (so se : Option Writer) (c : Config) :
    afterPasses env so se = Except.ok c ↔
      afterPassesOkB env so se = true ∧ c = afterPassesT env so se := by
  simp only [afterPasses, afterPassesOkB, afterPassesT, bind, Except.bind]
  cases h1 : Process env "plugin" (initConfig so se) with
  | error e =>
    have hb : ProcessOkB env "plugin" = false :=
      (Process_error_iff_okB env "plugin" (initConfig so se)).mp ⟨e, h1⟩
    simp [hb]
  | ok c1 =>
    obtain ⟨hb1, he1⟩ := (Process_ok_iff env "plugin" (initConfig so se) c1).mp h1
    subst he1
    dsimp only
    cases h2 : Process env "" (ProcessT env "plugin" (initConfig so se)) with
    | error e =>
      have hb : ProcessOkB env "" = false :=
        (Process_error_iff_okB env "" _).mp ⟨e, h2⟩
      simp [hb, hb1]
    | ok c2 =>
      obtain ⟨hb2, he2⟩ := (Process_ok_iff env "" _ c2).mp h2
      subst he2
      dsimp only
      have hcap : (ProcessT env "plugin" (initConfig so se)).Prefix = capturedPfx env so se := rfl
      rw [hcap]
      by_cases hp : capturedPfx env so se = ""
      · simp [pass3Runs, hp, hb1, hb2, cfgAfter2, eq_comm]
      · have hrun : pass3Runs env so se = true := by
          simp [pass3Runs, hp]
        rw [if_pos (by exact hp), Process_ok_iff]
        simp [hrun, hb1, hb2, pass3Pfx, cfgAfter2]

theorem afterPasses_error_iff (env : Env) (so se : Option Writer) :
    (∃ e, afterPasses env so se = Except.error e) ↔ afterPassesOkB env so se = false := by
  constructor
  · rintro ⟨e, he⟩
    by_contra hok
    rw [Bool.not_eq_false] at hok
    have hp : afterPasses env so se = Except.ok (afterPassesT env so se) :=
      (afterPasses_ok_iff env so se _).mpr ⟨hok, rfl⟩
    rw [hp] at he
    exact absurd he (by simp)
  · intro hok
    cases hp : afterPasses env so se with
    | error e => exact ⟨e, rfl⟩
    | ok c =>
      obtain ⟨h1, _⟩ := (afterPasses_ok_iff env so se c).mp hp
      rw [h1] at hok
      exact absurd hok (by simp)

theorem afterPasses_error_identified (env : Env) (so se : Option Writer) (e : ParseError)
    (h : afterPasses env so se = Except.error e) : errIdentified env so se e := by
  simp only [afterPasses, bind, Except.bind] at h
  unfold errIdentified
  cases h1 : Process env "plugin" (initConfig so se) with
  | error e1 =>
    rw [h1] at h
    simp only [Except.error.injEq] at h
    exact Or.inl (Process_error_imp env "plugin" _ e (h ▸ h1))
  | ok c1 =>
    obtain ⟨hb1, he1⟩ := (Process_ok_iff env "plugin" (initConfig so se) c1).mp h1
    subst he1
    rw [h1] at h
    dsimp only at h
    cases h2 : Process env "" (ProcessT env "plugin" (initConfig so se)) with
    | error e2 =>
      rw [h2] at h
      simp only [Except.error.injEq] at h
      exact Or.inr (Or.inl (Process_error_imp env "" _ e (h ▸ h2)))
    | ok c2 =>
      obtain ⟨hb2, he2⟩ := (Process_ok_iff env "" _ c2).mp h2
      subst he2
      rw [h2] at h
      dsimp only at h
      have hcap : (ProcessT env "plugin" (initConfig so se)).Prefix = capturedPfx env so se := rfl
      rw [hcap] at h
      by_cases hp : capturedPfx env so se = ""
      · rw [if_neg (by simp [hp])] at h
        exact absurd h (by simp)
      · rw [if_pos (by exact hp)] at h
        refine Or.inr (Or.inr ⟨by simp [pass3Runs, hp], ?_⟩)
        exact Process_error_imp env _ _ e h

theorem NewConfig_fst_ok_iff (env : Env) (so se : Option Writer) (c : Config) :
    (NewConfig env so se).1 = Except.ok c ↔
      afterPassesOkB env so se = true ∧ c = normalizeTimeout (afterPassesT env so se) := by
  unfold NewConfig
  cases h : afterPasses env so se with
  | error e =>
    have hb : afterPassesOkB env so se = false := (afterPasses_error_iff env so se).mp ⟨e, h⟩
    simp [hb]
  | ok c0 =>
    obtain ⟨hb, he⟩ := (afterPasses_ok_iff env so se c0).mp h
    subst he
    simp [hb, eq_comm]

theorem NewConfig_fst_error_iff (env : Env) (so se : Option Writer) :
    (∃ e, (NewConfig env so se).1 = Except.error e) ↔ afterPassesOkB env so se = false := by
  unfold NewConfig
  cases h : afterPasses env so se with
  | error e =>
    have hb : afterPassesOkB env so se = false := (afterPasses_error_iff env so se).mp ⟨e, h⟩
    simp [hb]
  | ok c0 =>
    obtain ⟨hb, _⟩ := (afterPasses_ok_iff env so se c0).mp h
    simp [hb]

theorem NewConfig_error_identified (env : Env) (so se : Option Writer) (e : ParseError)
    (h : (NewConfig env so se).1 = Except.error e) : errIdentified env so se e := by
  unfold NewConfig at h
  cases hap : afterPasses env so se with
  | error e1 =>
    rw [hap] at h
    dsimp only at h
    simp only [Except.error.injEq] at h
    exact h ▸ afterPasses_error_identified env so se e1 hap
  | ok c0 =>
    rw [hap] at h
    dsimp only at h
    exact absurd h (by simp)

theorem initConfig_zero (f : FieldId) (so se : Option Writer) :
    f.get (initConfig so se) = f.zero := by
  cases f <;> rfl

theorem lookupField_none_of_not_present (env : Env) (p : String) (f : FieldId)
    (h : present env p f = false) :
    lookupField env p f.keyBase f.alt = none := by
  unfold present at h
  cases hl : lookupField env p f.keyBase f.alt with
  | none => rfl
  | some kv =>
    rw [hl] at h
    exact absurd h (by simp)

theorem ProcessT_stable (f : FieldId) (env : Env) (p : String) (cfg : Config)
    (h : present env p f = false) :
    f.get (ProcessT env p cfg) = f.get cfg := by
  have h' := lookupField_none_of_not_present env p f h
  cases f <;>
    simp only [FieldId.keyBase, FieldId.alt] at h' <;>
    simp [FieldId.get, ProcessT, procStr, procBoolT, procList, h']

theorem normalizeTimeout_zero (f : FieldId) (c : Config) (h : f.get c = f.zero) :
    f.get (normalizeTimeout c) = f.zero := by
  cases f <;>
    simp [normalizeTimeout, FieldId.get, FieldId.zero, FieldId.kind, apply_ite] at h ⊢ <;>
    simp [h, justNumbers]

theorem ProcessT_Stdout (env : Env) (p : String) (cfg : Config) :
    (ProcessT env p cfg).Stdout = cfg.Stdout := rfl

theorem ProcessT_Stderr (env : Env) (p : String) (cfg : Config) :
    (ProcessT env p cfg).Stderr = cfg.Stderr := rfl

theorem normalizeTimeout_Stdout (c : Config) : (normalizeTimeout c).Stdout = c.Stdout := by
  unfold normalizeTimeout
  split <;> rfl

theorem normalizeTimeout_Stderr (c : Config) : (normalizeTimeout c).Stderr = c.Stderr := by
  unfold normalizeTimeout
  split <;> rfl

theorem normalizeTimeout_Debug (c : Config) : (normalizeTimeout c).Debug = c.Debug := by
  unfold normalizeTimeout
  split <;> rfl

theorem normalizeTimeout_KubeToken (c : Config) :
    (normalizeTimeout c).KubeToken = c.KubeToken := by
  unfold normalizeTimeout
  split <;> rfl

theorem normalizeTimeout_Pfx (c : Config) : (normalizeTimeout c).Prefix = c.Prefix := by
  unfold normalizeTimeout
  split <;> rfl

theorem afterPassesT_Stdout (env : Env) (so se : Option Writer) :
    (afterPassesT env so se).Stdout = so := by
  unfold afterPassesT cfgAfter2
  split <;> rfl

theorem afterPassesT_Stderr (env : Env) (so se : Option Writer) :
    (afterPassesT env so se).Stderr = se := by
  unfold afterPassesT cfgAfter2
  split <;> rfl

theorem NewConfig_writers (env : Env) (so se : Option Writer) (c : Config)
    (h : (NewConfig env so se).1 = Except.ok c) :
    c.Stdout = so ∧ c.Stderr = se := by
  obtain ⟨hb, he⟩ := (NewConfig_fst_ok_iff env so se c).mp h
  subst he
  rw [normalizeTimeout_Stdout, normalizeTimeout_Stderr, afterPassesT_Stdout, afterPassesT_Stderr]
  exact ⟨rfl, rfl⟩

/-! ### Claim theorems -/

/-- C1: the claim says the namespace consulted by pass 3 is determined solely
by the value `PLUGIN_PREFIX` had after pass 1, so that a bare `PREFIX`
variable cannot change which `<PREFIX>_<FIELD>` variables pass 3 reads. The
code violates this: on an environment with `PLUGIN_PREFIX=prod` and
`PREFIX=other`, the captured prefix is `"prod"` and `PROD_TIMEOUT=2m30s` is
set, yet pass 3 runs with prefix argument `"other"` (the post-pass-2
`cfg.Prefix`) and the resulting timeout is the `OTHER_` namespace's
`"9m9s"`, not `"2m30s"`. -/
theorem pass3_consults_redirected_namespace_on_failing_input :
    capturedPfx envBareRedirect none none = "prod"
    ∧ lookupEnv envBareRedirect "PROD_TIMEOUT" = some "2m30s"
    ∧ pass3Runs envBareRedirect none none = true
    ∧ pass3Pfx envBareRedirect none none = "other"
    ∧ (NewConfig envBareRedirect none none).1.toOption.map Config.Timeout = some "9m9s"
    ∧ ("9m9s" : String) ≠ "2m30s" := by decide

/-- C2: the claim says that when the prefix captured after pass 1 is
non-empty and the matching configurable-prefix variable exists, its value is
the field's final value. The code violates this on an environment that also
sets a bare `PREFIX`: with captured prefix `"prod"` and `PROD_TIMEOUT=2m30s`
present, the final timeout is `"7m7s"` (read from the `OTHER_` namespace that
the post-pass-2 prefix value selects), not `"2m30s"`. -/
theorem configurable_pfx_precedence_fails_on_failing_input :
    capturedPfx envConflictRedirect none none = "prod"
    ∧ lookupEnv envConflictRedirect (envKey "prod" "TIMEOUT") = some "2m30s"
    ∧ (NewConfig envConflictRedirect none none).1.toOption.map Config.Timeout = some "7m7s"
    ∧ ("7m7s" : String) ≠ "2m30s" := by decide

/-- C8 counterexample: the claim says boolean coercion accepts `true`/`false`
in any letter case, but the mixed-case spelling `tRue` is rejected with a
type-coercion failure instead of producing `true`. -/
theorem mixed_case_bool_rejected_cex :
    (NewConfig envMixedCaseBool none none).1 =
      Except.error ⟨"PLUGIN_DEBUG", "Debug", "tRue"⟩ := by decide

/-- C4: after the three passes, a non-empty timeout consisting entirely of
decimal digits is returned with a trailing `s` appended, and a timeout
containing a non-digit character is returned unchanged. -/
theorem numeric_timeout_gets_seconds_suffix (env : Env) (so se : Option Writer)
    (c0 cfg : Config) (outs : List String × List String)
    (h0 : afterPasses env so se = Except.ok c0)
    (h1 : NewConfig env so se = (Except.ok cfg, outs)) :
    (c0.Timeout ≠ "" → c0.Timeout.data.all (fun ch => ch.isDigit) = true →
      cfg.Timeout = c0.Timeout ++ "s")
    ∧ (c0.Timeout.data.any (fun ch => !ch.isDigit) = true → cfg.Timeout = c0.Timeout) := by
  have hfst : (NewConfig env so se).1 = Except.ok cfg := by rw [h1]
  obtain ⟨hb, he⟩ := (NewConfig_fst_ok_iff env so se cfg).mp hfst
  obtain ⟨hb2, he2⟩ := (afterPasses_ok_iff env so se c0).mp h0
  subst he2
  subst he
  constructor
  · intro hne hdig
    have hd : (afterPassesT env so se).Timeout.data ≠ [] := by
      intro hd
      exact hne (String.ext hd)
    have hjn : justNumbers (afterPassesT env so se).Timeout = true := by
      unfold justNumbers
      simp [hdig, hd]
    simp [normalizeTimeout, hjn]
  · intro hany
    obtain ⟨ch, hmem, hch⟩ := List.any_eq_true.mp hany
    have hall : (afterPassesT env so se).Timeout.data.all (fun c => c.isDigit) = false := by
      rw [List.all_eq_false]
      exact ⟨ch, hmem, by simpa using hch⟩
    have hjn : justNumbers (afterPassesT env so se).Timeout = false := by
      unfold justNumbers
      simp [hall]
    simp [normalizeTimeout, hjn]

/-- C4 witness: at `PLUGIN_TIMEOUT=42` the timeout `"42"` is all digits and
the returned timeout is `"42" ++ "s"`. -/
theorem numeric_timeout_gets_seconds_suffix_witness :
    Config.Timeout { Timeout := "42s" } = "42" ++ "s" :=
  (numeric_timeout_gets_seconds_suffix envNumericTimeout none none
      { Timeout := "42" } { Timeout := "42s" } ([], [])
      (by decide) (by decide)).1 (by decide) (by decide)

/-- C6: the debug emission leaves the record returned to the caller exactly
as the passes plus timeout normalization produced it — in particular the
auth-token field still holds its original, unredacted value. -/
theorem debug_emission_leaves_record_unchanged (env : Env) (so se : Option Writer)
    (c0 cfg : Config) (outs : List String × List String)
    (h0 : afterPasses env so se = Except.ok c0)
    (h1 : NewConfig env so se = (Except.ok cfg, outs)) :
    cfg = normalizeTimeout c0 ∧ cfg.KubeToken = c0.KubeToken := by
  have hfst : (NewConfig env so se).1 = Except.ok cfg := by rw [h1]
  obtain ⟨hb, he⟩ := (NewConfig_fst_ok_iff env so se cfg).mp hfst
  obtain ⟨hb2, he2⟩ := (afterPasses_ok_iff env so se c0).mp h0
  subst he2
  subst he
  exact ⟨rfl, normalizeTimeout_KubeToken _⟩

set_option maxRecDepth 8192 in
/-- C6 witness: with debug on and a token set, the returned record is the
passes' record and still carries the raw token. -/
theorem debug_emission_leaves_record_unchanged_witness :
    cfgDebugToken = normalizeTimeout cfgDebugToken
    ∧ Config.KubeToken cfgDebugToken = Config.KubeToken cfgDebugToken :=
  debug_emission_leaves_record_unchanged envDebugToken none (some ⟨"0x2"⟩)
    cfgDebugToken cfgDebugToken ([], [logDebugLine cfgDebugToken])
    (by decide) (by decide)

theorem redactConfig_eq (cfg : Config) :
    redactConfig cfg =
      { cfg with KubeToken := if cfg.KubeToken = "" then "" else "(redacted)" } := by
  unfold redactConfig
  by_cases h : cfg.KubeToken = ""
  · cases cfg
    simp_all
  · simp [h]

theorem logDebugLine_decomp (cfg : Config) :
    logDebugLine cfg = renderHead cfg ++ " KubeToken:" ++
      (if cfg.KubeToken = "" then "" else "(redacted)") ++ " SkipTLSVerify:" ++
      renderTail cfg := by
  rw [logDebugLine, redactConfig_eq]
  unfold renderConfig renderHead renderTail
  simp [String.append_assoc]
  rw [← String.append_assoc]
  congr 1

set_option maxRecDepth 8192 in
/-- C5 counterexample: the claim says the raw token value does not occur
anywhere in the emitted line. With debug on, token `hunter2`, and the same
string also set as the `Values` field, the single emitted line decomposes as
`strLeakA ++ "hunter2" ++ strLeakB` — the raw token occurs in the line (via
the `Values` slot) even though the `KubeToken` slot shows `(redacted)`. -/
theorem debug_line_contains_raw_token_cex :
    (NewConfig envTokenTwice none (some ⟨"0x1"⟩)).1.toOption.map Config.KubeToken =
        some "hunter2"
    ∧ (NewConfig envTokenTwice none (some ⟨"0x1"⟩)).1.toOption.map Config.Debug = some true
    ∧ (NewConfig envTokenTwice none (some ⟨"0x1"⟩)).2.2 =
        [strLeakA ++ "hunter2" ++ strLeakB] := by decide

/-- C5 (amended): when the final debug flag is on and a stderr destination is
supplied, exactly one line is emitted; its `KubeToken` slot renders as
`(redacted)` when the token is non-empty and as empty when the token is
empty; and the line does not depend on which non-empty value the token has
(so the token cannot leak through its own field). The raw token value can
still occur in the line when another field holds an equal string. -/
theorem debug_line_redacts_token_field (env : Env) (so se : Option Writer)
    (cfg : Config) (soL seL : List String)
    (h : NewConfig env so se = (Except.ok cfg, (soL, seL)))
    (hdbg : cfg.Debug = true) (hse : se.isSome = true) :
    seL = [logDebugLine cfg]
    ∧ (∃ a b, logDebugLine cfg =
        a ++ " KubeToken:" ++ (if cfg.KubeToken = "" then "" else "(redacted)") ++
          " SkipTLSVerify:" ++ b)
    ∧ (∀ t₁ t₂, t₁ ≠ "" → t₂ ≠ "" →
        logDebugLine { cfg with KubeToken := t₁ } =
          logDebugLine { cfg with KubeToken := t₂ }) := by
  have hfst : (NewConfig env so se).1 = Except.ok cfg := by rw [h]
  have hw := NewConfig_writers env so se cfg hfst
  refine ⟨?_, ⟨renderHead cfg, renderTail cfg, logDebugLine_decomp cfg⟩, ?_⟩
  · have hsnd : (NewConfig env so se).2 = (soL, seL) := by rw [h]
    unfold NewConfig at hfst hsnd
    cases hap : afterPasses env so se with
    | error e =>
      rw [hap] at hfst
      exact absurd hfst (by simp)
    | ok c0 =>
      rw [hap] at hfst hsnd
      dsimp only at hfst hsnd
      simp only [Except.ok.injEq] at hfst
      rw [hfst, hw.2, hdbg, hse] at hsnd
      simp only [Bool.and_self, if_true, Prod.mk.injEq] at hsnd
      exact hsnd.2.symm
  · intro t₁ t₂ h₁ h₂
    simp [logDebugLine, redactConfig, h₁, h₂]

set_option maxRecDepth 8192 in
/-- C5 amended witness: at the `envTokenTwice` input the emitted line is the
redacted rendering of the produced record, the `KubeToken` slot decomposes as
`(redacted)`, and the line does not depend on the non-empty token value. -/
theorem debug_line_redacts_token_field_witness :
    [strLeakA ++ "hunter2" ++ strLeakB] = [logDebugLine cfgTokenTwice]
    ∧ (∃ a b, logDebugLine cfgTokenTwice =
        a ++ " KubeToken:" ++
          (if Config.KubeToken cfgTokenTwice = "" then "" else "(redacted)") ++
          " SkipTLSVerify:" ++ b)
    ∧ (∀ t₁ t₂, t₁ ≠ "" → t₂ ≠ "" →
        logDebugLine { cfgTokenTwice with KubeToken := t₁ } =
          logDebugLine { cfgTokenTwice with KubeToken := t₂ }) :=
  debug_line_redacts_token_field envTokenTwice none (some ⟨"0x1"⟩) cfgTokenTwice
    [] [strLeakA ++ "hunter2" ++ strLeakB] (by decide) (by decide) (by decide)

/-- C10: with `PLUGIN_PREFIX=A` (non-empty), no bare `PREFIX` variable, and
`<A>_PREFIX=B` set, pass 3 runs and consults the `A_` namespace, yet the
returned record's prefix field is `B`: the prefix field is itself an
ordinary target of the later passes, so the returned prefix need not be the
prefix whose namespace was consulted. -/
theorem pfx_field_overwritten_by_own_pass (env : Env) (so se : Option Writer)
    (A B : String) (cfg : Config)
    (hA : lookupEnv env "PLUGIN_PREFIX" = some A) (hAne : A ≠ "")
    (hbare : lookupEnv env "PREFIX" = none)
    (hB : lookupEnv env (envKey A "PREFIX") = some B)
    (hok : (NewConfig env so se).1 = Except.ok cfg) :
    pass3Runs env so se = true ∧ pass3Pfx env so se = A ∧ cfg.Prefix = B := by
  have hk1 : envKey "plugin" "PREFIX" = "PLUGIN_PREFIX" := by decide
  have hk2 : envKey "" "PREFIX" = "PREFIX" := by decide
  have hl1 : lookupField env "plugin" "PREFIX" "" = some ("PLUGIN_PREFIX", A) := by
    rw [lookupField_noAlt, hk1, hA]
    rfl
  have hcap : capturedPfx env so se = A := by
    show procStr env "plugin" "PREFIX" "" "" = A
    rw [procStr, hl1]
  have hl2 : lookupField env "" "PREFIX" "" = none := by
    rw [lookupField_noAlt, hk2, hbare]
    rfl
  have hp3 : pass3Pfx env so se = A := by
    show procStr env "" "PREFIX" "" (capturedPfx env so se) = A
    rw [procStr, hl2, hcap]
  have hrun : pass3Runs env so se = true := by
    simp [pass3Runs, hcap, hAne]
  refine ⟨hrun, hp3, ?_⟩
  obtain ⟨hb, he⟩ := (NewConfig_fst_ok_iff env so se cfg).mp hok
  subst he
  rw [normalizeTimeout_Pfx]
  unfold afterPassesT
  rw [if_pos hrun, hp3]
  show procStr env A "PREFIX" "" (pass3Pfx env so se) = B
  have hl3 : lookupField env A "PREFIX" "" = some (envKey A "PREFIX", B) := by
    rw [lookupField_noAlt, hB]
    rfl
  rw [procStr, hl3]

/-- C10 witness: `PLUGIN_PREFIX=prod` and `PROD_PREFIX=beta` make pass 3
consult the `PROD_` namespace while the returned prefix field is `beta`. -/
theorem pfx_field_overwritten_by_own_pass_witness :
    pass3Runs envPfxOverwrite none none = true
    ∧ pass3Pfx envPfxOverwrite none none = "prod"
    ∧ Config.Prefix { Prefix := "beta" } = "beta" :=
  pfx_field_overwritten_by_own_pass envPfxOverwrite none none "prod" "beta"
    { Prefix := "beta" } (by decide) (by decide) (by decide) (by decide) (by decide)

/-- C3: every field for which no matching variable is present in any executed
pass (counting the unprefixed `envconfig`-tag fallback) holds the zero value
of its type in the returned record; the two writer fields are instead exactly
the constructor's arguments. -/
theorem untouched_fields_keep_zero_values (env : Env) (so se : Option Writer)
    (cfg : Config) (f : FieldId)
    (hok : (NewConfig env so se).1 = Except.ok cfg)
    (h1 : present env "plugin" f = false)
    (h2 : present env "" f = false)
    (h3 : pass3Runs env so se = true → present env (pass3Pfx env so se) f = false) :
    f.get cfg = f.zero ∧ cfg.Stdout = so ∧ cfg.Stderr = se := by
  have hw := NewConfig_writers env so se cfg hok
  obtain ⟨hb, he⟩ := (NewConfig_fst_ok_iff env so se cfg).mp hok
  subst he
  refine ⟨?_, hw.1, hw.2⟩
  apply normalizeTimeout_zero
  have g1 : f.get (ProcessT env "plugin" (initConfig so se)) = f.zero := by
    rw [ProcessT_stable f env "plugin" _ h1, initConfig_zero]
  have g2 : f.get (cfgAfter2 env so se) = f.zero := by
    unfold cfgAfter2
    rw [ProcessT_stable f env "" _ h2]
    exact g1
  unfold afterPassesT
  by_cases hr : pass3Runs env so se = true
  · rw [if_pos hr, ProcessT_stable f env _ _ (h3 hr)]
    exact g2
  · rw [if_neg hr]
    exact g2

/-- C3 witness: in the empty environment the timeout field of the returned
record is the zero string and the writers are the supplied destinations. -/
theorem untouched_fields_keep_zero_values_witness :
    FieldId.get FieldId.timeout {} = FieldId.zero FieldId.timeout
    ∧ Config.Stdout {} = none ∧ Config.Stderr {} = none :=
  untouched_fields_keep_zero_values [] none none {} FieldId.timeout
    (by decide) (by decide) (by decide) (by decide)

theorem errFromBool_to_field (env : Env) (p : String) (e : ParseError)
    (h : errFromBool env p e) :
    ∃ f : FieldId, f.kind = FKind.kBool ∧ ∃ v,
      lookupField env p f.keyBase f.alt = some (e.keyName, v) ∧
      parseBool v = none ∧ e.fieldName = f.goName ∧ e.value = v := by
  rcases h with h | h | h | h | h | h | h
  · obtain ⟨k, v, hl, hpv, rfl⟩ := h
    exact ⟨.updateDependencies, rfl, v, hl, hpv, rfl, rfl⟩
  · obtain ⟨k, v, hl, hpv, rfl⟩ := h
    exact ⟨.debug, rfl, v, hl, hpv, rfl, rfl⟩
  · obtain ⟨k, v, hl, hpv, rfl⟩ := h
    exact ⟨.skipTLSVerify, rfl, v, hl, hpv, rfl, rfl⟩
  · obtain ⟨k, v, hl, hpv, rfl⟩ := h
    exact ⟨.dryRun, rfl, v, hl, hpv, rfl, rfl⟩
  · obtain ⟨k, v, hl, hpv, rfl⟩ := h
    exact ⟨.wait, rfl, v, hl, hpv, rfl, rfl⟩
  · obtain ⟨k, v, hl, hpv, rfl⟩ := h
    exact ⟨.reuseValues, rfl, v, hl, hpv, rfl, rfl⟩
  · obtain ⟨k, v, hl, hpv, rfl⟩ := h
    exact ⟨.force, rfl, v, hl, hpv, rfl, rfl⟩

/-- C7: the constructor fails exactly when some executed pass consults a
variable whose value fails its field's type coercion (only boolean fields can
fail; string and list conversions are total), and every returned failure
names the key (`ParseError.keyName`), the Go field (`ParseError.fieldName`)
and the offending value of one such coercion failure. On failure the
returned value carries an error and no configuration record. -/
theorem failure_iff_coercion_failure (env : Env) (so se : Option Writer) :
    ((∃ e, (NewConfig env so se).1 = Except.error e) ↔
      (passHasCoercionFailure env "plugin" ∨ passHasCoercionFailure env "" ∨
        (pass3Runs env so se = true ∧ passHasCoercionFailure env (pass3Pfx env so se))))
    ∧ (∀ e, (NewConfig env so se).1 = Except.error e →
        ∃ f : FieldId, f.kind = FKind.kBool ∧ ∃ v,
          ((lookupField env "plugin" f.keyBase f.alt = some (e.keyName, v)) ∨
           (lookupField env "" f.keyBase f.alt = some (e.keyName, v)) ∨
           (pass3Runs env so se = true ∧
             lookupField env (pass3Pfx env so se) f.keyBase f.alt = some (e.keyName, v))) ∧
          parseBool v = none ∧ e.fieldName = f.goName ∧ e.value = v) := by
  constructor
  · rw [NewConfig_fst_error_iff]
    unfold afterPassesOkB
    simp only [← ProcessOkB_false_iff]
    cases ProcessOkB env "plugin" <;> cases ProcessOkB env "" <;>
      cases pass3Runs env so se <;> cases ProcessOkB env (pass3Pfx env so se) <;> simp
  · intro e he
    have hid := NewConfig_error_identified env so se e he
    rcases hid with h | h | ⟨hr, h⟩
    · obtain ⟨f, hk, v, hl, hpv, hfn, hv⟩ := errFromBool_to_field env "plugin" e h
      exact ⟨f, hk, v, Or.inl hl, hpv, hfn, hv⟩
    · obtain ⟨f, hk, v, hl, hpv, hfn, hv⟩ := errFromBool_to_field env "" e h
      exact ⟨f, hk, v, Or.inr (Or.inl hl), hpv, hfn, hv⟩
    · obtain ⟨f, hk, v, hl, hpv, hfn, hv⟩ := errFromBool_to_field env _ e h
      exact ⟨f, hk, v, Or.inr (Or.inr ⟨hr, hl⟩), hpv, hfn, hv⟩

/-- C7 witness: `DEBUG=banana` fails, and the error names the `DEBUG` key,
the `Debug` field and the value `banana`. -/
theorem failure_iff_coercion_failure_witness :
    ∃ f : FieldId, f.kind = FKind.kBool ∧ ∃ v,
      ((lookupField envBadBool "plugin" f.keyBase f.alt = some ("DEBUG", v)) ∨
       (lookupField envBadBool "" f.keyBase f.alt = some ("DEBUG", v)) ∨
       (pass3Runs envBadBool none none = true ∧
         lookupField envBadBool (pass3Pfx envBadBool none none) f.keyBase f.alt =
           some ("DEBUG", v))) ∧
      parseBool v = none ∧ "Debug" = f.goName ∧ "banana" = v :=
  (failure_iff_coercion_failure envBadBool none none).2
    ⟨"DEBUG", "Debug", "banana"⟩ (by decide)

/-- C8 (amended): boolean coercion accepts exactly the `strconv.ParseBool`
set — `1`, `t`, `T`, `true`, `TRUE`, `True` for true and `0`, `f`, `F`,
`false`, `FALSE`, `False` for false; every other string, including other
mixed-case spellings such as `tRue`, is a type-coercion failure naming the
consulted key, the field and the value. -/
theorem bool_coercion_exact_set (env : Env) (p kb alt fn : String) (cur : Bool)
    (k v : String) (h : lookupField env p kb alt = some (k, v)) :
    ((v = "1" ∨ v = "t" ∨ v = "T" ∨ v = "true" ∨ v = "TRUE" ∨ v = "True") →
        procBool env p kb alt fn cur = Except.ok true)
    ∧ ((v = "0" ∨ v = "f" ∨ v = "F" ∨ v = "false" ∨ v = "FALSE" ∨ v = "False") →
        procBool env p kb alt fn cur = Except.ok false)
    ∧ (¬(v = "1" ∨ v = "t" ∨ v = "T" ∨ v = "true" ∨ v = "TRUE" ∨ v = "True") →
       ¬(v = "0" ∨ v = "f" ∨ v = "F" ∨ v = "false" ∨ v = "FALSE" ∨ v = "False") →
        procBool env p kb alt fn cur = Except.error ⟨k, fn, v⟩) := by
  refine ⟨?_, ?_, ?_⟩
  · intro hv
    unfold procBool
    rw [h]
    dsimp only
    unfold parseBool
    rw [if_pos hv]
  · intro hv
    have hne : ¬(v = "1" ∨ v = "t" ∨ v = "T" ∨ v = "true" ∨ v = "TRUE" ∨ v = "True") := by
      rcases hv with rfl | rfl | rfl | rfl | rfl | rfl <;> decide
    unfold procBool
    rw [h]
    dsimp only
    unfold parseBool
    rw [if_neg hne, if_pos hv]
  · intro hv1 hv2
    unfold procBool
    rw [h]
    dsimp only
    unfold parseBool
    rw [if_neg hv1, if_neg hv2]

/-- C8 amended witness: the accepted spelling `True` coerces to `true` for
the `Debug` field. -/
theorem bool_coercion_exact_set_witness :
    procBool envTrueBool "plugin" "DEBUG" "" "Debug" false = Except.ok true :=
  (bool_coercion_exact_set envTrueBool "plugin" "DEBUG" "" "Debug" false
    "PLUGIN_DEBUG" "True" (by decide)).1 (by decide)

/-- C9: the constructor never writes to the stdout destination; it writes at
most one line to the stderr destination — exactly the debug line, exactly
when the final debug flag is true and the supplied stderr destination is
non-nil (the returned record's stderr field being that same destination) —
and on failure it writes nothing. -/
theorem output_discipline (env : Env) (so se : Option Writer) :
    (NewConfig env so se).2.1 = []
    ∧ (NewConfig env so se).2.2.length ≤ 1
    ∧ (∀ cfg, (NewConfig env so se).1 = Except.ok cfg →
        (cfg.Stderr = se
          ∧ ((cfg.Debug = true ∧ se.isSome = true) ↔
              (NewConfig env so se).2.2 = [logDebugLine cfg])
          ∧ (¬(cfg.Debug = true ∧ se.isSome = true) → (NewConfig env so se).2.2 = [])))
    ∧ (∀ e, (NewConfig env so se).1 = Except.error e → (NewConfig env so se).2.2 = []) := by
  unfold NewConfig
  cases h : afterPasses env so se with
  | error e => simp
  | ok c0 =>
    dsimp only
    have hst : (normalizeTimeout c0).Stderr = se := by
      obtain ⟨hb, he⟩ := (afterPasses_ok_iff env so se c0).mp h
      rw [he] at *
      rw [normalizeTimeout_Stderr, afterPassesT_Stderr]
    refine ⟨rfl, ?_, ?_, ?_⟩
    · split <;> simp
    · intro cfg hc
      simp only [Except.ok.injEq] at hc
      subst hc
      refine ⟨hst, ?_, ?_⟩ <;> rw [hst] <;>
        cases hdb : (normalizeTimeout c0).Debug <;> cases hse : se.isSome <;>
          simp [hdb, hse]
    · intro e he
      exact absurd he (by simp)

/-- C9 witness: with `DEBUG=true` and a non-nil stderr destination the
emitted stderr content is exactly the one debug line, and in the empty
environment with a nil stderr destination nothing is written to stderr. -/
theorem output_discipline_witness :
    (Config.Stderr cfgDebugOnly = some ⟨"0x3"⟩
      ∧ ((Config.Debug cfgDebugOnly = true ∧ (some (⟨"0x3"⟩ : Writer)).isSome = true) ↔
          (NewConfig envDebugOnly none (some ⟨"0x3"⟩)).2.2 = [logDebugLine cfgDebugOnly])
      ∧ (¬(Config.Debug cfgDebugOnly = true ∧ (some (⟨"0x3"⟩ : Writer)).isSome = true) →
          (NewConfig envDebugOnly none (some ⟨"0x3"⟩)).2.2 = []))
    ∧ (NewConfig ([] : Env) none none).2.2 = [] :=
  ⟨(output_discipline envDebugOnly none (some ⟨"0x3"⟩)).2.2.1 cfgDebugOnly (by decide),
   ((output_discipline ([] : Env) none none).2.2.1 {} (by decide)).2.2 (by decide)⟩

end Helm
